import Mathlib

/-!
Verification of the generation–validation–repair orchestration
(`backend/models/workflow.py` and `backend/models/tsxvalidator/validator.py`)
as a shallow embedding in Lean 4.

External effects (the TypeScript compiler subprocess, the LLM calls, the FAISS
retriever, the filesystem) are parameters of the embedded functions: each
embedded function is the pure transformation the Python code performs on the
values those effects deliver.
-/

/-! ## Python string helpers used by the validator and the repair planner

All helpers are written by structural recursion over character lists so that
every concrete instance reduces inside the kernel. -/

/-- If `pat` is a prefix of `s`, return the remainder of `s` after it. -/
def dropPre : List Char → List Char → Option (List Char)
  | [], s => some s
  | _ :: _, [] => none
  | p :: ps, c :: cs => if p = c then dropPre ps cs else none

/-- Fueled scanner behind Python `str.split` for a non-empty separator:
`acc` holds the reversed characters of the current piece. -/
def splitFuelAux (sep : List Char) : Nat → List Char → List Char → List (List Char)
  | 0, s, acc => [acc.reverse ++ s]
  | fuel + 1, s, acc =>
    match s with
    | [] => [acc.reverse]
    | c :: rest =>
      match dropPre sep s with
      | some rem => acc.reverse :: splitFuelAux sep fuel rem []
      | none => splitFuelAux sep fuel rest (c :: acc)

/-- Python `s.split(sep)` for a non-empty separator. -/
def pySplit (s sep : String) : List String :=
  if sep = "" then [s]
  else (splitFuelAux sep.toList (s.toList.length + 1) s.toList []).map
    (fun cs => String.mk cs)

/-- Fueled scanner behind Python `s.split(sep, 1)`: first occurrence only. -/
def splitOnceAux (sep : List Char) : Nat → List Char → List Char → Option (List Char × List Char)
  | 0, _, _ => none
  | fuel + 1, s, acc =>
    match s with
    | [] => none
    | c :: rest =>
      match dropPre sep s with
      | some rem => some (acc.reverse, rem)
      | none => splitOnceAux sep fuel rest (c :: acc)

/-- Python `s.split(sep, 1)`: split at the first occurrence of `sep`.
Returns `none` when `sep` does not occur (Python returns a one-element list,
which the callers treat as the failure case). -/
def pySplitOnce (s sep : String) : Option (String × String) :=
  (splitOnceAux sep.toList (s.toList.length + 1) s.toList []).map
    (fun p => (String.mk p.1, String.mk p.2))

/-- Python substring test `pat in s` (for non-empty `pat`). -/
def containsSub (s pat : String) : Bool :=
  (splitOnceAux pat.toList (s.toList.length + 1) s.toList []).isSome

/-- Python `s.startswith(pat)`. -/
def pyStartsWith (s pat : String) : Bool :=
  (dropPre pat.toList s.toList).isSome

/-- Python `s.strip()`: remove whitespace from both ends. -/
def pyStrip (s : String) : String :=
  String.mk (((s.toList.dropWhile Char.isWhitespace).reverse.dropWhile
    Char.isWhitespace).reverse)

/-- Python `str.splitlines` restricted to the newline terminator: a trailing
newline does not produce a final empty element, and the empty string has no
lines. -/
def pySplitlines (s : String) : List String :=
  if s = "" then []
  else
    let parts := pySplit s "\n"
    if parts.getLast? = some "" then parts.dropLast else parts

/-- Join a list of strings with a separator (Python `sep.join(lines)`). -/
def joinSep (sep : String) : List String → String
  | [] => ""
  | [x] => x
  | x :: y :: rest => x ++ sep ++ joinSep sep (y :: rest)

/-- Numeric value of a forward-ordered list of decimal digit characters. -/
def digitsVal (ds : List Char) : Nat :=
  ds.foldl (fun acc c => acc * 10 + (c.toNat - 48)) 0

/-- The location regex of `_parse_error_line`: `re.search(r'\((\d+),(\d+)\)$', location)`.
Succeeds exactly when `location` ends with `(line,col)` for non-empty digit
strings `line` and `col`, returning the two numbers. -/
def parseLocSuffix (location : String) : Option (Nat × Nat) :=
  match location.toList.reverse with
  | ')' :: rest =>
    let colDigits := rest.takeWhile Char.isDigit
    let rest2 := rest.dropWhile Char.isDigit
    if colDigits.isEmpty then none
    else
      match rest2 with
      | ',' :: rest3 =>
        let lineDigits := rest3.takeWhile Char.isDigit
        let rest4 := rest3.dropWhile Char.isDigit
        if lineDigits.isEmpty then none
        else
          match rest4 with
          | '(' :: _ => some (digitsVal lineDigits.reverse, digitsVal colDigits.reverse)
          | _ => none
      | _ => none
  | _ => none

/-! ## Code Validator (`tsxvalidator/validator.py`) -/

/-- A parsed compiler diagnostic: `{"location": [line, col], "code": "TS...", "message": ...}`. -/
structure Diag where
  line : Nat
  col : Nat
  code : String
  message : String
  deriving DecidableEq, Repr

/-- One entry of the `errors` list returned by `validate_tsx`: either a parsed
diagnostic dict, or the string of a caught exception (`[str(e)]`). -/
inductive ErrEntry where
  | diag (d : Diag)
  | exMsg (s : String)
  deriving DecidableEq, Repr

/-- `TSXValidator._parse_error_line`: split on `": error TS"`, split the rest on
`":"`, read the `(line,col)` suffix of the location part; any failure yields
`None` (the Python code logs and returns `None`, including the `AttributeError`
raised when the location regex does not match). -/
def parse_error_line (line : String) : Option Diag :=
  match pySplitOnce line ": error TS" with
  | none => none
  | some lp =>
    match pySplitOnce lp.2 ":" with
    | none => none
    | some ep =>
      match parseLocSuffix lp.1 with
      | none => none
      | some lc =>
        some { line := lc.1, col := lc.2, code := "TS" ++ ep.1, message := pyStrip ep.2 }

/-- `TSXValidator._parse_errors`: keep the lines of the combined compiler output
that contain `"error TS"` and start with `"src/"`, parse each, and drop the
malformed ones. -/
def parse_errors (error_output : String) : List Diag :=
  let lines := pySplit error_output "\n"
  (lines.filter (fun l => containsSub l "error TS" && pyStartsWith l "src/")).filterMap
    parse_error_line

/-- The outcome of the compiler invocation inside `validate_tsx`: either the
captured `stdout`/`stderr` of the subprocess, or an exception raised anywhere in
the `try` block (missing compiler, filesystem failure, ...). -/
inductive RunOutcome where
  | ok (stdout stderr : String)
  | exn (msg : String)
  deriving DecidableEq, Repr

/-- The dictionary returned by `TSXValidator.validate_tsx`. -/
structure ValidationResult where
  valid : Bool
  errors : List ErrEntry
  deriving DecidableEq, Repr

/-- Python `result.stderr or result.stdout`: the first operand unless it is falsy. -/
def pyOr (a b : String) : String :=
  if a = "" then b else a

/-- `TSXValidator.validate_tsx`, as a function of the compiler-invocation
outcome: parse the combined output; no parsed diagnostics gives
`valid=True, errors=[]`, parsed diagnostics give `valid=False` with the parsed
list, and a caught exception gives `valid=False, errors=[str(e)]`. -/
def validate_tsx (outcome : RunOutcome) : ValidationResult :=
  match outcome with
  | .exn e => { valid := false, errors := [ErrEntry.exMsg e] }
  | .ok stdout stderr =>
    let parsed := parse_errors (pyOr stderr stdout)
    if parsed.isEmpty then { valid := true, errors := [] }
    else { valid := false, errors := parsed.map ErrEntry.diag }

/-- `TSXValidator._clean_up`: when the temporary file exists, attempt
`temp_file.unlink()` — but an exception raised by `unlink` is caught and only
logged, leaving the file in place (`unlinkOk` is whether the unlink call
succeeds); when the file does not exist, only a warning is logged. The
workspace's single source slot is modelled as `Option String` (the content of
`src/temp_1.tsx`, or `none` when absent). -/
def clean_up (unlinkOk : Bool) (slot : Option String) : Option String :=
  match slot with
  | some c => if unlinkOk then none else some c
  | none => none

/-- `TSXValidator.validate_tsx` with its filesystem effect on the single source
slot. `writeOk` is whether the `open`/`write` of the temporary file succeeds
(on failure the exception is caught and the slot keeps its previous content);
the `finally` block runs `_clean_up` on the slot on every exit path, with
`unlinkOk` the outcome of the unlink attempt. Returns the result dictionary
together with the final slot content. -/
def validate_tsx_fs (slot0 : Option String) (tsx_code : String) (writeOk : Bool)
    (outcome : RunOutcome) (unlinkOk : Bool) : ValidationResult × Option String :=
  if writeOk then
    (validate_tsx outcome, clean_up unlinkOk (some tsx_code))
  else
    ({ valid := false, errors := [ErrEntry.exMsg "write failure"] },
      clean_up unlinkOk slot0)

/-! ## Theorems for claims C1 and C2 -/

/-- C1. For every compiler-invocation outcome, `validate_tsx` returns
`valid=true` iff its errors list is empty; `valid=true, errors=[]` is returned
exactly when no diagnostic lines are parsed from the compiler output, and both
the parsed-diagnostics exit and the internal-exception exit return
`valid=false` with a non-empty errors list. -/
theorem validate_tsx_valid_iff_no_errors (o : RunOutcome) :
    ((validate_tsx o).valid = true ↔ (validate_tsx o).errors = []) ∧
    (∀ stdout stderr, o = RunOutcome.ok stdout stderr →
      parse_errors (pyOr stderr stdout) = [] →
      validate_tsx o = { valid := true, errors := [] }) ∧
    (∀ stdout stderr, o = RunOutcome.ok stdout stderr →
      parse_errors (pyOr stderr stdout) ≠ [] →
      (validate_tsx o).valid = false ∧ (validate_tsx o).errors ≠ []) ∧
    (∀ e, o = RunOutcome.exn e →
      (validate_tsx o).valid = false ∧ (validate_tsx o).errors ≠ []) := by
  have hmapne : ∀ l : List Diag, l ≠ [] → l.map ErrEntry.diag ≠ [] := by
    intro l hl
    cases l with
    | nil => exact absurd rfl hl
    | cons a t => simp
  have hEfalse : ∀ l : List Diag, l ≠ [] → l.isEmpty = false := by
    intro l hl
    cases l with
    | nil => exact absurd rfl hl
    | cons a t => rfl
  refine ⟨?_, ?_, ?_, ?_⟩
  · cases o with
    | exn e => simp [validate_tsx]
    | ok stdout stderr =>
      cases hl : parse_errors (pyOr stderr stdout) with
      | nil => simp [validate_tsx, hl]
      | cons a t =>
        have h1 : (validate_tsx (RunOutcome.ok stdout stderr)).valid = false := by
          simp [validate_tsx, hl]
        have h2 : (validate_tsx (RunOutcome.ok stdout stderr)).errors ≠ [] := by
          simp [validate_tsx, hl]
        rw [h1]
        simp [h2]
  · intro stdout stderr ho hp
    subst ho
    simp [validate_tsx, hp]
  · intro stdout stderr ho hp
    subst ho
    refine ⟨?_, ?_⟩
    · simp [validate_tsx, hEfalse _ hp]
    · simp only [validate_tsx, hEfalse _ hp]
      simpa using hmapne _ hp
  · intro e ho
    subst ho
    simp [validate_tsx]

/-- Witness for C1 at the concrete outcome `exn "boom"`. -/
theorem validate_tsx_valid_iff_no_errors_witness :
    (validate_tsx (RunOutcome.exn "boom")).valid = false ∧
    (validate_tsx (RunOutcome.exn "boom")).errors ≠ [] :=
  (validate_tsx_valid_iff_no_errors (RunOutcome.exn "boom")).2.2.2 "boom" rfl

/-- C2 counterexample. On a concrete call whose `unlink` raises (a filesystem
failure during deletion), `_clean_up` catches and only logs the exception: the
temporary source file written for this validation still exists when
`validate_tsx` returns — contradicting the claim that the file no longer
exists after every call. -/
theorem validate_tsx_unlink_failure_cex :
    (validate_tsx_fs none "code" true (RunOutcome.exn "boom") false).2 =
      some "code" := by
  rfl

/-- C2 amended. The `finally` block invokes `_clean_up` on every exit path —
write failure, internal exception, parsed diagnostics, success — and whenever
the unlink of the temporary file succeeds, the file no longer exists when the
call returns; under successful unlinks, two consecutive validation calls leave
the workspace source slot empty between the calls and after the second call.
Deletion is always attempted, but `_clean_up` swallows unlink exceptions, so
it is not guaranteed. -/
theorem validate_tsx_cleans_slot_amended
    (slot0 : Option String) (c1 : String) (w1 : Bool) (o1 : RunOutcome)
    (c2 : String) (w2 : Bool) (o2 : RunOutcome) (u : Bool)
    (hu : u = true) :
    (validate_tsx_fs slot0 c1 w1 o1 u).2 = none ∧
    (validate_tsx_fs (validate_tsx_fs slot0 c1 w1 o1 u).2 c2 w2 o2 u).2 = none := by
  subst hu
  have hclean : ∀ s : Option String, clean_up true s = none := by
    intro s; cases s <;> rfl
  constructor <;> cases w1 <;> cases w2 <;> simp [validate_tsx_fs, hclean]

/-- Witness for the amended C2 theorem: a successful-unlink run (an internal
exception on the second call included) leaves the slot empty between and after
the two calls. -/
theorem validate_tsx_cleans_slot_amended_witness :
    (validate_tsx_fs none "x" true (RunOutcome.ok "" "") true).2 = none ∧
    (validate_tsx_fs (validate_tsx_fs none "x" true (RunOutcome.ok "" "") true).2
        "y" true (RunOutcome.exn "boom") true).2 = none :=
  validate_tsx_cleans_slot_amended none "x" true (RunOutcome.ok "" "") "y" true
    (RunOutcome.exn "boom") true rfl

/-! ## Orchestrator state (`workflow.py`) -/

/-- The `Component` pydantic model: a proposed component reference. -/
structure Component where
  title : String
  reason : String
  deriving DecidableEq, Repr

/-- The Python value of the `errors` field of the state
(`str | None | list[Any]`). -/
inductive ErrorsVal where
  | pyNone
  | pyStr (s : String)
  | pyList (l : List ErrEntry)
  deriving DecidableEq, Repr

/-- Python truthiness of the `errors` field. -/
def errorsFalsy : ErrorsVal → Bool
  | ErrorsVal.pyNone => true
  | ErrorsVal.pyStr s => s = ""
  | ErrorsVal.pyList l => l.isEmpty

/-- Python truthiness of an `Optional[str]` field. -/
def truthyStrOpt : Option String → Bool
  | some s => !(s == "")
  | none => false

/-- The default code scaffold `code_sample` from `prompts.py` (a TSX template
importing components from the design-system package; transcribed without the
markdown fence). No theorem below inspects its content. -/
def code_sample : String :=
  "import React from react; import Box from nlmk-ds; const Interface = () => (<Box></Box>); export default Interface; DONT ADD ANY COMMENTS IN THE CODE!"

/-- The `InterfaceGeneratingState` pydantic model. -/
structure InterfaceGeneratingState where
  query : Option String
  components : Option (List Component)
  code : Option String
  errors : ErrorsVal
  new_query : Option String
  instructions : Option String
  components_to_modify : Option (List Component)
  deriving DecidableEq, Repr

/-- `InterfaceGeneratingState(query=query)`: all other fields at their pydantic
defaults (`code` defaults to `code_sample`, the rest to `None`). -/
def initState (query : String) : InterfaceGeneratingState :=
  { query := some query
    components := none
    code := some code_sample
    errors := ErrorsVal.pyNone
    new_query := none
    instructions := none
    components_to_modify := none }

/-- The session-priming step at the top of `generate`: when the checkpointer
holds a prior state for the thread, reload it and overwrite only its `query`
field with the new request (the line that would set `new_query` is commented
out in the source); otherwise build a fresh default state. -/
def primeState (prior : Option InterfaceGeneratingState) (query : String) :
    InterfaceGeneratingState :=
  match prior with
  | some s => { s with query := some query }
  | none => initState query

/-- Python `state.query + state.new_query` on `Optional[str]` values (both are
non-`None` strings wherever the workflow evaluates it; on `None` Python would
raise, which no theorem below exercises). -/
def pyStrOptAdd (a b : Option String) : Option String :=
  match a, b with
  | some x, some y => some (x ++ y)
  | _, _ => none

/-- The `compiler` node `compile_code`, as a function of the validator outcome
for the (fence-stripped) candidate code: on `valid` clear `errors` to `""` and,
when `new_query` is truthy, append `new_query` onto `query`; otherwise store
the validator's errors list on the state. -/
def compile_code (st : InterfaceGeneratingState) (outcome : RunOutcome) :
    InterfaceGeneratingState :=
  let vr := validate_tsx outcome
  if vr.valid then
    let st1 := { st with errors := ErrorsVal.pyStr "" }
    if truthyStrOpt st.new_query then
      { st1 with query := pyStrOptAdd st.query st.new_query }
    else st1
  else
    { st with errors := ErrorsVal.pyList vr.errors }

/-- The target of the conditional edge out of the `compiler` node. -/
inductive Route where
  | toEnd
  | toDebug
  deriving DecidableEq, Repr

/-- `compile_interface`: route to `END` when the state's `errors` field is
falsy, and to the `debug` node otherwise. -/
def compile_interface (st : InterfaceGeneratingState) : Route :=
  if errorsFalsy st.errors then Route.toEnd else Route.toDebug

/-! ## Theorems for claim C3 -/

/-- C3 counterexample. At the concrete fresh state for query `"q"` and a
validation call that raises `"tsc not found"` (an infrastructure failure, not a
parsed diagnostic), the conditional transition after the compile step selects
the debug/repair node — contradicting the claim that an internal exception in
`validate_tsx` is never routed into Repair. -/
theorem compile_interface_routes_infra_error_to_debug :
    compile_interface
      (compile_code (initState "q") (RunOutcome.exn "tsc not found")) =
      Route.toDebug := by
  rfl

/-- C3 amended. For every state and every exception message, an internal
exception inside `validate_tsx` yields `valid=false` with the one-element
errors list `[str(e)]`, which `compile_code` stores on the state and
`compile_interface` then routes to the debug/repair node — exactly like a
diagnostic-driven validation error, not distinguished from it. -/
theorem compile_interface_infra_error_amended
    (st : InterfaceGeneratingState) (e : String) :
    (compile_code st (RunOutcome.exn e)).errors =
      ErrorsVal.pyList [ErrEntry.exMsg e] ∧
    compile_interface (compile_code st (RunOutcome.exn e)) = Route.toDebug := by
  constructor
  · simp [compile_code, validate_tsx]
  · simp [compile_code, validate_tsx, compile_interface, errorsFalsy]

/-! ## Graph execution (`generate` and the LangGraph runtime)

The StateGraph built in `generate` has nodes `funnel → coder → compiler`, a
conditional edge from `compiler` chosen by `compile_interface`, and an edge
`debug → compiler`. The LangGraph Pregel loop executes one node per superstep
and raises `GraphRecursionError` when the configured `recursion_limit`
(set to 50 in `generate`) supersteps have run and a node is still pending;
`generate` catches that exception and returns an error string. The node bodies
(LLM calls, validation) are parameters. -/

/-- The four graph nodes added in `generate`. -/
inductive GNode where
  | funnel
  | coder
  | compiler
  | debug
  deriving DecidableEq, Repr

/-- The node bodies, abstracted over the external LLM/validator effects. -/
structure GraphFns where
  funnelF : InterfaceGeneratingState → InterfaceGeneratingState
  coderF : InterfaceGeneratingState → InterfaceGeneratingState
  compilerF : InterfaceGeneratingState → InterfaceGeneratingState
  debugF : InterfaceGeneratingState → InterfaceGeneratingState

/-- Dispatch a node to its body. -/
def applyNode (fs : GraphFns) : GNode → InterfaceGeneratingState → InterfaceGeneratingState
  | GNode.funnel => fs.funnelF
  | GNode.coder => fs.coderF
  | GNode.compiler => fs.compilerF
  | GNode.debug => fs.debugF

/-- The edges of the graph: fixed edges `funnel→coder`, `coder→compiler`,
`debug→compiler`, and the conditional edge out of `compiler` decided by
`compile_interface` on the post-node state (`none` = `END`). -/
def nextNode (s : InterfaceGeneratingState) : GNode → Option GNode
  | GNode.funnel => some GNode.coder
  | GNode.coder => some GNode.compiler
  | GNode.compiler =>
    match compile_interface s with
    | Route.toEnd => none
    | Route.toDebug => some GNode.debug
  | GNode.debug => some GNode.compiler

/-- The result of running the graph: normal completion with the final state, or
the recursion limit hit with a node still pending (`GraphRecursionError`).
Both carry the number of `debug`-node executions (repair cycles) performed. -/
inductive RunRes where
  | done (s : InterfaceGeneratingState) (debugCount : Nat)
  | recursionLimit (debugCount : Nat)
  deriving DecidableEq, Repr

/-- The Pregel loop: run the pending node, count it if it is `debug`, follow the
edge, and stop with `GraphRecursionError` when the superstep budget is spent
while a node is still pending. -/
def runGraph (fs : GraphFns) : Nat → GNode → InterfaceGeneratingState → Nat → RunRes
  | 0, _, _, d => RunRes.recursionLimit d
  | fuel + 1, n, s, d =>
    let s1 := applyNode fs n s
    let d1 := if n = GNode.debug then d + 1 else d
    match nextNode s1 n with
    | none => RunRes.done s1 d1
    | some n1 => runGraph fs fuel n1 s1 d1

/-- `generate`: prime the state from the (possibly present) prior session,
run the graph with `recursion_limit` 50 from the `funnel` entry point, return
the final code on completion and the caught-exception error string when the
recursion limit is exceeded. -/
def generateModel (fs : GraphFns) (prior : Option InterfaceGeneratingState)
    (query : String) : String :=
  match runGraph fs 50 GNode.funnel (primeState prior query) 0 with
  | RunRes.done s _ => s.code.getD "No code generated"
  | RunRes.recursionLimit _ =>
    "An error occurred during generation: GraphRecursionError"

/-- Helper: once the run is inside the `compiler ⇄ debug` loop of an
always-failing validator, the remaining fuel determines the outcome and the
number of further repair cycles exactly. -/
theorem runGraph_loop (fs : GraphFns)
    (hcomp : ∀ s, errorsFalsy (fs.compilerF s).errors = false) :
    ∀ fuel : Nat,
      (∀ s d, runGraph fs fuel GNode.compiler s d = RunRes.recursionLimit (d + fuel / 2)) ∧
      (∀ s d, runGraph fs fuel GNode.debug s d = RunRes.recursionLimit (d + (fuel + 1) / 2)) := by
  intro fuel
  induction fuel with
  | zero =>
    constructor <;> intro s d <;> simp [runGraph]
  | succ f ih =>
    constructor
    · intro s d
      have h1 : compile_interface (fs.compilerF s) = Route.toDebug := by
        simp [compile_interface, hcomp s]
      show runGraph fs (f + 1) GNode.compiler s d = RunRes.recursionLimit (d + (f + 1) / 2)
      simp only [runGraph, applyNode, nextNode, h1]
      exact ih.2 (fs.compilerF s) d
    · intro s d
      show runGraph fs (f + 1) GNode.debug s d = RunRes.recursionLimit (d + (f + 1 + 1) / 2)
      have hstep : runGraph fs (f + 1) GNode.debug s d
          = runGraph fs f GNode.compiler (fs.debugF s) (d + 1) := by
        simp [runGraph, applyNode, nextNode]
      rw [hstep, ih.1 (fs.debugF s) (d + 1)]
      congr 1
      omega

/-- C4 amended. For every choice of node bodies whose compile step always
leaves a truthy `errors` field (a candidate source that never validates), and
every prior session and query, the orchestration turn terminates: the graph
run stops with `GraphRecursionError` after the configured `recursion_limit` of
50 supersteps — which under the `funnel→coder→compiler→(debug→compiler)*`
topology amounts to exactly 24 executions of the repair node, not 50 — and
`generate` returns the bounded-retry error string instead of looping forever. -/
theorem generate_terminates_at_recursion_limit (fs : GraphFns)
    (st : InterfaceGeneratingState) (prior : Option InterfaceGeneratingState)
    (query : String)
    (hcomp : ∀ s, errorsFalsy (fs.compilerF s).errors = false) :
    runGraph fs 50 GNode.funnel st 0 = RunRes.recursionLimit 24 ∧
    generateModel fs prior query =
      "An error occurred during generation: GraphRecursionError" := by
  have hstep1 : ∀ (f : Nat) (s : InterfaceGeneratingState) (d : Nat),
      runGraph fs (f + 1) GNode.funnel s d = runGraph fs f GNode.coder (fs.funnelF s) d := by
    intro f s d
    simp [runGraph, applyNode, nextNode]
  have hstep2 : ∀ (f : Nat) (s : InterfaceGeneratingState) (d : Nat),
      runGraph fs (f + 1) GNode.coder s d = runGraph fs f GNode.compiler (fs.coderF s) d := by
    intro f s d
    simp [runGraph, applyNode, nextNode]
  have hrun : ∀ s : InterfaceGeneratingState,
      runGraph fs 50 GNode.funnel s 0 = RunRes.recursionLimit 24 := by
    intro s
    rw [show (50 : Nat) = 49 + 1 from rfl, hstep1,
      show (49 : Nat) = 48 + 1 from rfl, hstep2,
      (runGraph_loop fs hcomp 48).1]
  refine ⟨hrun st, ?_⟩
  unfold generateModel
  rw [hrun (primeState prior query)]

/-- A compiler output whose single line parses as a diagnostic, so that
validation always fails on it. -/
def neverValidOutcome : RunOutcome :=
  RunOutcome.ok "src/temp_1.tsx(1,1): error TS2307: Cannot find module" ""

/-- Concrete node bodies for a candidate source that never compiles: the LLM
nodes are identities and the compile node is the real `compile_code` applied to
a fixed failing compiler outcome. -/
def alwaysFailFns : GraphFns :=
  { funnelF := fun s => s
    coderF := fun s => s
    compilerF := fun s => compile_code s neverValidOutcome
    debugF := fun s => s }

/-- C4 counterexample. On the concrete never-compiling run, the turn stops at
the configured `recursion_limit` of 50 supersteps having executed the repair
node 24 times — not "exactly the configured maximum number of repair cycles
(recursion_limit 50)" as the claim states — while still returning the
bounded-retry error string. -/
theorem generate_repair_cycles_not_fifty :
    runGraph alwaysFailFns 50 GNode.funnel (initState "q") 0 = RunRes.recursionLimit 24 ∧
    (24 : Nat) ≠ 50 ∧
    generateModel alwaysFailFns none "q" =
      "An error occurred during generation: GraphRecursionError" := by
  refine ⟨by decide, by decide, by decide⟩

/-- Witness for the amended C4 theorem at the concrete never-compiling run. -/
theorem generate_terminates_at_recursion_limit_witness :
    runGraph alwaysFailFns 50 GNode.funnel (initState "q") 0 = RunRes.recursionLimit 24 ∧
    generateModel alwaysFailFns none "q" =
      "An error occurred during generation: GraphRecursionError" :=
  generate_terminates_at_recursion_limit alwaysFailFns (initState "q") none "q"
    (fun _ => rfl)

/-! ## Repair Planner annotation (`debug_docs` in `workflow.py`) -/

/-- Python list item assignment `lines[i] = f(lines[i])`: a negative index
counts from the end of the list, and an index that is still out of range
raises `IndexError` (modelled as `none`). -/
def pyListSet (l : List String) (i : Int) (f : String → String) : Option (List String) :=
  let j : Int := if i < 0 then i + l.length else i
  if 0 ≤ j ∧ j < (l.length : Int) then
    some (l.set j.toNat (f (l.getD j.toNat "")))
  else none

/-- One iteration of the `for error in errors_list` loop of `debug_docs`,
restricted to its effect on `code_lines`: compute `line_num = location[0] - 1`;
if `line_num < len(code_lines)` append the marker to that line (Python index
semantics), else append the marker as a new line. -/
def annotateStep (code_lines : List String) (e : Diag) : Option (List String) :=
  let line_num : Int := (e.line : Int) - 1
  let error_message := "//ERROR " ++ e.code ++ ": " ++ e.message
  if line_num < (code_lines.length : Int) then
    pyListSet code_lines line_num (fun s => s ++ error_message)
  else
    some (code_lines ++ [error_message])

/-- The whole loop of `debug_docs` over the diagnostics, threading the growing
`code_lines` list; an `IndexError` aborts (propagates) immediately. -/
def annotateAll : List String → List Diag → Option (List String)
  | lines, [] => some lines
  | lines, e :: es =>
    match annotateStep lines e with
    | none => none
    | some l1 => annotateAll l1 es

/-- The `code_lines` list produced by `debug_docs(code, errors_list)` before it
is joined into the annotated source string. -/
def debug_docs_lines (code : String) (errors_list : List Diag) : Option (List String) :=
  annotateAll (pySplitlines code) errors_list

/-- The annotated source string returned by `debug_docs`. -/
def debug_docs_annotated (code : String) (errors_list : List Diag) : Option String :=
  (debug_docs_lines code errors_list).map
    (fun ls => "code with error messages :\n" ++ joinSep "\n" ls)

/-- The number of diagnostics that are out of bounds of the line list at the
moment the loop processes them: the list has `n` lines when the next diagnostic
arrives, and each out-of-bounds diagnostic appends one line. -/
def seqOutCount : Int → List Diag → Nat
  | _, [] => 0
  | n, e :: es =>
    if (e.line : Int) - 1 < n then seqOutCount n es
    else seqOutCount (n + 1) es + 1

/-- Whether a line carries an inline diagnostic marker. -/
def hasMarker (s : String) : Bool :=
  containsSub s "//ERROR "

/-- The number of lines of the annotated source that carry a marker. -/
def annotatedCount (ls : List String) : Nat :=
  (ls.filter hasMarker).length

/-- Length behaviour of one annotation step for a diagnostic with a positive
(1-based) line number: an in-bounds step keeps the number of lines, an
out-of-bounds step appends one line. -/
theorem annotateStep_length (lines : List String) (e : Diag) (h1 : 1 ≤ e.line) :
    (annotateStep lines e).map List.length =
      some (if (e.line : Int) - 1 < (lines.length : Int)
        then lines.length else lines.length + 1) := by
  have h0 : (0 : Int) ≤ (e.line : Int) - 1 := by
    have hc : (1 : Int) ≤ (e.line : Int) := by exact_mod_cast h1
    omega
  by_cases hb : (e.line : Int) - 1 < (lines.length : Int)
  · have hneg : ¬ ((e.line : Int) - 1 < 0) := by omega
    simp [annotateStep, pyListSet, hb, hneg, h0, List.length_set]
  · simp [annotateStep, hb]

/-- Length of the whole annotation loop for diagnostics with positive line
numbers: the final number of lines is the original number plus the number of
sequentially-out-of-bounds diagnostics. -/
theorem annotateAll_length (D : List Diag) :
    ∀ lines : List String, (∀ e ∈ D, 1 ≤ e.line) →
      (annotateAll lines D).map List.length =
        some (lines.length + seqOutCount (lines.length : Int) D) := by
  induction D with
  | nil =>
    intro lines _
    simp [annotateAll, seqOutCount]
  | cons e es ih =>
    intro lines h
    have h1 : 1 ≤ e.line := h e (List.mem_cons_self e es)
    have hes : ∀ x ∈ es, 1 ≤ x.line := fun x hx => h x (List.mem_cons_of_mem e hx)
    have hstep := annotateStep_length lines e h1
    by_cases hb : (e.line : Int) - 1 < (lines.length : Int)
    · rw [if_pos hb] at hstep
      obtain ⟨l1, hl1, hlen⟩ : ∃ l1, annotateStep lines e = some l1 ∧ l1.length = lines.length := by
        cases hA : annotateStep lines e with
        | none => rw [hA] at hstep; simp at hstep
        | some l1 =>
          rw [hA] at hstep
          simp at hstep
          exact ⟨l1, rfl, hstep⟩
      simp only [annotateAll, hl1]
      rw [ih l1 hes, hlen]
      simp [seqOutCount, hb]
    · rw [if_neg hb] at hstep
      obtain ⟨l1, hl1, hlen⟩ : ∃ l1, annotateStep lines e = some l1 ∧ l1.length = lines.length + 1 := by
        cases hA : annotateStep lines e with
        | none => rw [hA] at hstep; simp at hstep
        | some l1 =>
          rw [hA] at hstep
          simp at hstep
          exact ⟨l1, rfl, hstep⟩
      simp only [annotateAll, hl1]
      rw [ih l1 hes, hlen]
      simp only [seqOutCount, if_neg hb]
      congr 1
      push_cast
      omega

/-- C5 amended. For every source text and every diagnostic list with positive
(1-based) line numbers, `debug_docs` checks each diagnostic against the bounds
of the current, already-annotated line list — which grows as out-of-bounds
markers are appended — appending the marker to the addressed line when in
bounds and as a new trailing line otherwise; consequently the final number of
lines equals the original line count plus the number of diagnostics that were
out of bounds at the moment they were processed (markers addressed to the same
line share that line rather than each producing an annotated line). -/
theorem debug_docs_line_count (code : String) (D : List Diag)
    (h : ∀ e ∈ D, 1 ≤ e.line) :
    (debug_docs_lines code D).map List.length =
      some ((pySplitlines code).length +
        seqOutCount ((pySplitlines code).length : Int) D) :=
  annotateAll_length D (pySplitlines code) h

/-- The diagnostic used by the C5 counterexample: line 2 of a one-line source. -/
def dupDiag : Diag :=
  { line := 2, col := 1, code := "TS9", message := "m" }

/-- C5 counterexample. On the one-line source `"a"` and two identical
diagnostics addressing line 2 — both out of the source's line bounds — the
claim predicts two appended trailing marker lines (0 in-bounds + 2
out-of-bounds), but the code appends only one: the second diagnostic finds the
marker line appended by the first inside the grown list's bounds and annotates
it, so exactly one line carries markers. -/
theorem debug_docs_line_count_cex :
    debug_docs_lines "a" [dupDiag, dupDiag] =
      some ["a", "//ERROR TS9: m//ERROR TS9: m"] ∧
    annotatedCount ["a", "//ERROR TS9: m//ERROR TS9: m"] = 1 ∧
    (pySplitlines "a").length < dupDiag.line ∧
    (1 : Nat) ≠ 0 + 2 := by
  refine ⟨by decide, by decide, by decide, by decide⟩

/-- Witness for the amended C5 theorem at a concrete source and diagnostic. -/
theorem debug_docs_line_count_witness :
    (debug_docs_lines "a" [dupDiag]).map List.length =
      some ((pySplitlines "a").length +
        seqOutCount ((pySplitlines "a").length : Int) [dupDiag]) :=
  debug_docs_line_count "a" [dupDiag] (by decide)

/-! ## Knowledge Retriever (`search_docs` in `workflow.py`) -/

/-- A retrieved snippet, identified by its `page_content`. -/
abbrev Doc := String

/-- One element of the `docs` list built by `search_docs`. On a cache hit the
code runs `docs.append(docs_cache[q])`, putting the whole cached list in as a
single element; on a miss it runs `docs += result`, extending element-wise. -/
inductive DocsEntry where
  | single (d : Doc)
  | group (l : List Doc)
  deriving DecidableEq, Repr

/-- `truncate_content`: keep at most 250 lines, marking truncation with `...`. -/
def truncate_content (content : String) : String :=
  let sentences := pySplitlines content
  if sentences.length > 250 then joinSep "\n" (sentences.take 250) ++ "..."
  else content

/-- Lookup in the process-lifetime `docs_cache` dict (keys are unique because
only missing keys are ever inserted). -/
def lookupCache (cache : List (String × List Doc)) (q : String) : Option (List Doc) :=
  match cache.find? (fun p => p.1 == q) with
  | some p => some p.2
  | none => none

/-- `set(queries)` with first-occurrence order kept (the Python set's iteration
order is implementation-defined; the theorems below use singleton query lists,
on which every order agrees). -/
def pySetAux (seen : List String) : List String → List String
  | [] => []
  | q :: qs =>
    if seen.contains q then pySetAux seen qs
    else q :: pySetAux (q :: seen) qs

/-- Deduplicated query list, as `queries = set(queries)` produces. -/
def pySetList (queries : List String) : List String :=
  pySetAux [] queries

/-- What a `search_docs` call produces: the returned `docs` list, the updated
`docs_cache`, and the number of retriever invocations (`len(qrs)` tasks). -/
structure SearchOut where
  docs : List DocsEntry
  cache : List (String × List Doc)
  lookups : Nat
  deriving DecidableEq, Repr

/-- `search_docs(queries, is_dbg)`: pick `dbg_ret` or `def_ret` by the flag,
deduplicate the queries, serve cached queries by appending the cached list as a
single element, retrieve the rest concurrently (truncating each snippet before
caching), extend `docs` element-wise with the retrieved snippets, and record
the new cache entries. The two retrievers are the external FAISS profiles. -/
def search_docs (def_ret dbg_ret : String → List Doc) (is_dbg : Bool)
    (cache : List (String × List Doc)) (queries : List String) : SearchOut :=
  let retriever := if is_dbg then dbg_ret else def_ret
  let qset := pySetList queries
  let hitDocs := qset.filterMap (fun q => (lookupCache cache q).map DocsEntry.group)
  let qrs := qset.filter (fun q => (lookupCache cache q).isNone)
  let results := qrs.map (fun q => (retriever q).map truncate_content)
  let missDocs := (results.map (fun r => r.map DocsEntry.single)).flatten
  { docs := hitDocs ++ missDocs
    cache := cache ++ qrs.zip results
    lookups := qrs.length }

/-- Helper: a call whose single query is cached performs no retrieval, leaves
the cache unchanged, and returns the cached list as one `group` element,
whatever the profile flag. -/
theorem search_docs_hit_aux (def_ret dbg_ret : String → List Doc) (is_dbg : Bool)
    (cache : List (String × List Doc)) (q : String) (l : List Doc)
    (h : lookupCache cache q = some l) :
    search_docs def_ret dbg_ret is_dbg cache [q] =
      { docs := [DocsEntry.group l], cache := cache, lookups := 0 } := by
  simp [search_docs, pySetList, pySetAux, h]

/-! ## Theorems for claims C6 and C10 -/

/-- The broad (top-3) retrieval profile of the C6/C10 counterexamples. -/
def broadRet : String → List Doc :=
  fun _ => ["d1", "d2", "d3"]

/-- The narrow (top-1) retrieval profile of the C6/C10 counterexamples. -/
def narrowRet : String → List Doc :=
  fun _ => ["n1"]

/-- C6 counterexample. The first call for `"q"` returns the three retrieved
snippets element-wise and caches them; the second call for `"q"` issues zero
lookups but — because the hit path uses `docs.append(docs_cache[q])` where the
miss path uses `docs += result` — returns a one-element list containing the
cached list, not the cached snippet list the first call returned. -/
theorem search_docs_second_call_cex :
    (search_docs broadRet narrowRet false [] ["q"]).docs =
      [DocsEntry.single "d1", DocsEntry.single "d2", DocsEntry.single "d3"] ∧
    (search_docs broadRet narrowRet false
        (search_docs broadRet narrowRet false [] ["q"]).cache ["q"]).docs =
      [DocsEntry.group ["d1", "d2", "d3"]] ∧
    (search_docs broadRet narrowRet false
        (search_docs broadRet narrowRet false [] ["q"]).cache ["q"]).docs ≠
      (search_docs broadRet narrowRet false [] ["q"]).docs ∧
    (search_docs broadRet narrowRet false
        (search_docs broadRet narrowRet false [] ["q"]).cache ["q"]).lookups = 0 := by
  refine ⟨by decide, by decide, by decide, by decide⟩

/-- C6 amended. For every pair of retrieval profiles, profile flag, cache and
query: when the query is cached, a call containing exactly that query issues
zero external lookups, leaves the cache entry (and the whole cache) unchanged
for the process lifetime, and serves the cached snippet list — appended as a
single nested element of the returned docs list rather than element-wise. -/
theorem search_docs_second_call_cached (def_ret dbg_ret : String → List Doc)
    (is_dbg : Bool) (cache : List (String × List Doc)) (q : String) (l : List Doc)
    (h : lookupCache cache q = some l) :
    (search_docs def_ret dbg_ret is_dbg cache [q]).lookups = 0 ∧
    (search_docs def_ret dbg_ret is_dbg cache [q]).docs = [DocsEntry.group l] ∧
    (search_docs def_ret dbg_ret is_dbg cache [q]).cache = cache := by
  rw [search_docs_hit_aux def_ret dbg_ret is_dbg cache q l h]
  exact ⟨rfl, rfl, rfl⟩

/-- Witness for the amended C6 theorem at a concrete cache. -/
theorem search_docs_second_call_cached_witness :
    (search_docs broadRet narrowRet false [("q", ["a"])] ["q"]).lookups = 0 ∧
    (search_docs broadRet narrowRet false [("q", ["a"])] ["q"]).docs =
      [DocsEntry.group ["a"]] ∧
    (search_docs broadRet narrowRet false [("q", ["a"])] ["q"]).cache =
      [("q", ["a"])] :=
  search_docs_second_call_cached broadRet narrowRet false [("q", ["a"])] "q" ["a"]
    (by decide)

/-- C10 counterexample. After `"p"` is first retrieved under the broad profile,
a later narrow-profile call for `"p"` does serve the broad result from the
cache with zero lookups, but it does not return the cached snippet list itself
(the three broad snippets element-wise), nor the narrow profile's own top-1
answer: it returns the cached list nested as one element. -/
theorem search_docs_narrow_gets_broad_cex :
    (search_docs broadRet narrowRet true
        (search_docs broadRet narrowRet false [] ["p"]).cache ["p"]).docs =
      [DocsEntry.group ["d1", "d2", "d3"]] ∧
    (search_docs broadRet narrowRet true
        (search_docs broadRet narrowRet false [] ["p"]).cache ["p"]).docs ≠
      [DocsEntry.single "d1", DocsEntry.single "d2", DocsEntry.single "d3"] ∧
    (search_docs broadRet narrowRet true
        (search_docs broadRet narrowRet false [] ["p"]).cache ["p"]).docs ≠
      [DocsEntry.single "n1"] ∧
    (search_docs broadRet narrowRet true
        (search_docs broadRet narrowRet false [] ["p"]).cache ["p"]).lookups = 0 := by
  refine ⟨by decide, by decide, by decide, by decide⟩

/-- C10 amended. The cache is keyed by query text alone and ignores the
retrieval profile: for every cached query, a later call under either profile
returns the identical result — zero lookups and the first profile's cached
snippet list served as one nested element (so a narrow top-1 repair lookup
receives all three broad snippets, nested, and never consults its own
retriever). -/
theorem search_docs_cache_ignores_profile (def_ret dbg_ret : String → List Doc)
    (cache : List (String × List Doc)) (q : String) (l : List Doc)
    (h : lookupCache cache q = some l) :
    search_docs def_ret dbg_ret true cache [q] =
      search_docs def_ret dbg_ret false cache [q] ∧
    (search_docs def_ret dbg_ret true cache [q]).docs = [DocsEntry.group l] ∧
    (search_docs def_ret dbg_ret true cache [q]).lookups = 0 := by
  rw [search_docs_hit_aux def_ret dbg_ret true cache q l h,
    search_docs_hit_aux def_ret dbg_ret false cache q l h]
  exact ⟨rfl, rfl, rfl⟩

/-- Witness for the amended C10 theorem at a concrete cache. -/
theorem search_docs_cache_ignores_profile_witness :
    search_docs broadRet narrowRet true [("p", ["x"])] ["p"] =
      search_docs broadRet narrowRet false [("p", ["x"])] ["p"] ∧
    (search_docs broadRet narrowRet true [("p", ["x"])] ["p"]).docs =
      [DocsEntry.group ["x"]] ∧
    (search_docs broadRet narrowRet true [("p", ["x"])] ["p"]).lookups = 0 :=
  search_docs_cache_ignores_profile broadRet narrowRet [("p", ["x"])] "p" ["x"]
    (by decide)

/-! ## Selection stage (`funnel`) and session priming (`generate`) -/

/-- The parsed `FunnelOutput` pydantic model (fresh mode). -/
structure FunnelOutput where
  needed_components : List Component
  deriving DecidableEq, Repr

/-- The parsed `FunnelIterOutput` pydantic model (iterative mode). -/
structure FunnelIterOutput where
  instructions : String
  components_to_modify : List Component
  deriving DecidableEq, Repr

/-- `funnel`: when `state.new_query` is truthy, run the iterative chain and
store its instructions and modification list verbatim on the state; otherwise
run the fresh chain and store only the proposed components `cmp` with
`f"{cmp.title}:" in components_descs`. The two model outputs are the parsed
LLM responses, the catalog description string is `get_comps_descs()`. -/
def funnel (components_descs : String) (freshOut : FunnelOutput)
    (iterOut : FunnelIterOutput) (state : InterfaceGeneratingState) :
    InterfaceGeneratingState :=
  if truthyStrOpt state.new_query then
    { state with
        instructions := some iterOut.instructions
        components_to_modify := some iterOut.components_to_modify }
  else
    { state with
        components := some (freshOut.needed_components.filter
          (fun cmp => containsSub components_descs (cmp.title ++ ":"))) }

/-- The condition that makes a turn take the iterative Selection and iterative
code-generation branches (`funnel` and `write_code` both test
`state.new_query`). -/
def isIterativeMode (s : InterfaceGeneratingState) : Bool :=
  truthyStrOpt s.new_query

/-! ## Theorems for claim C7 -/

/-- C7 counterexample. In iterative mode (`new_query` truthy) the funnel stores
the model's modification list verbatim: against the catalog
`"Header: top header"`, a proposed component titled `"Bogus"` — whose
`"Bogus:"` does not occur in the catalog — is stored on the session state, so
the stored-references-always-match-the-catalog invariant fails after an
iterative funnel step. -/
theorem funnel_iterative_stores_unfiltered_cex :
    (funnel "Header: top header" ⟨[]⟩ ⟨"do it", [⟨"Bogus", "r"⟩]⟩
        { initState "q" with new_query := some "make it red" }).components_to_modify =
      some [⟨"Bogus", "r"⟩] ∧
    containsSub "Header: top header" ("Bogus" ++ ":") = false := by
  refine ⟨by decide, by decide⟩

/-- C7 amended. Only the fresh Selection output is filtered: after a fresh
funnel step every component stored in `state.components` has `"title:"`
occurring in the catalog description string (non-matching references are
silently dropped, not reported); after an iterative funnel step
`state.components_to_modify` is the model's list verbatim, with no catalog
filtering. -/
theorem funnel_filters_fresh_only (components_descs : String)
    (freshOut : FunnelOutput) (iterOut : FunnelIterOutput)
    (state : InterfaceGeneratingState) :
    (truthyStrOpt state.new_query = false →
      ∀ cmp ∈ (funnel components_descs freshOut iterOut state).components.getD [],
        containsSub components_descs (cmp.title ++ ":") = true) ∧
    (truthyStrOpt state.new_query = true →
      (funnel components_descs freshOut iterOut state).components_to_modify =
        some iterOut.components_to_modify) := by
  constructor
  · intro hfresh cmp hmem
    have hm2 : cmp ∈ freshOut.needed_components.filter
        (fun c => containsSub components_descs (c.title ++ ":")) := by
      simpa [funnel, hfresh] using hmem
    exact (List.mem_filter.mp hm2).2
  · intro hiter
    simp [funnel, hiter]

/-- Witness for the amended C7 theorem: the fresh branch keeps only the
catalog-matching title, and the iterative branch stores the list verbatim. -/
theorem funnel_filters_fresh_only_witness :
    (∀ cmp ∈ (funnel "Header: top header" ⟨[⟨"Header", "w"⟩, ⟨"Tabs", "r"⟩]⟩
        ⟨"do it", []⟩ (initState "q")).components.getD [],
      containsSub "Header: top header" (cmp.title ++ ":") = true) ∧
    (funnel "Header: top header" ⟨[⟨"Header", "w"⟩]⟩ ⟨"do it", [⟨"Tabs", "r"⟩]⟩
        { initState "q" with new_query := some "more" }).components_to_modify =
      some [⟨"Tabs", "r"⟩] :=
  ⟨(funnel_filters_fresh_only "Header: top header"
      ⟨[⟨"Header", "w"⟩, ⟨"Tabs", "r"⟩]⟩ ⟨"do it", []⟩ (initState "q")).1 (by decide),
    (funnel_filters_fresh_only "Header: top header" ⟨[⟨"Header", "w"⟩]⟩
      ⟨"do it", [⟨"Tabs", "r"⟩]⟩
      { initState "q" with new_query := some "more" }).2 (by decide)⟩

/-! ## Theorems for claims C8 and C9 -/

/-- C8 counterexample. A turn whose session has a prior persisted state does
not run in iterative mode: `generate` overwrites `query` (the assignment to
`new_query` is commented out in the source), so the primed state's `new_query`
stays `None` and the Selection step takes the fresh branch — contradicting the
claim that prior state implies the iterative path. -/
theorem prior_session_not_iterative_cex :
    (primeState (some (initState "first request")) "second request").new_query = none ∧
    isIterativeMode (primeState (some (initState "first request")) "second request")
      = false := by
  refine ⟨rfl, rfl⟩

/-- C8 amended. Iterativeness is implied by a truthy `new_query` on the loaded
state, not by the presence of prior session state: priming with a prior state
overwrites `query` with the new request and leaves `new_query` (hence the
mode) exactly as stored, and a turn without prior state is fresh; since
`generate` never sets `new_query`, a prior session alone never selects the
iterative branches. -/
theorem iterative_mode_from_new_query (s : InterfaceGeneratingState) (q : String) :
    (primeState (some s) q).query = some q ∧
    (primeState (some s) q).new_query = s.new_query ∧
    isIterativeMode (primeState (some s) q) = isIterativeMode s ∧
    isIterativeMode (primeState none q) = false := by
  exact ⟨rfl, rfl, rfl, rfl⟩

/-- The session state of the C9 counterexample: an iterative session holding
the accumulated artifact and a pending new request. -/
def iterSessionState : InterfaceGeneratingState :=
  { query := some "q1"
    components := none
    code := some "artifact"
    errors := ErrorsVal.pyNone
    new_query := some "q2"
    instructions := none
    components_to_modify := none }

/-- A compiler outcome with empty output: validation succeeds. -/
def validOutcome : RunOutcome :=
  RunOutcome.ok "" ""

/-- C9 counterexample. The request history lives in the `query` field: on a
successful iterative validation `compile_code` appends `new_query` onto
`query` (here producing `"q1q2"`). Priming the next turn overwrites that same
field with the new request `"q3"`, so the accumulated request history does not
remain unchanged at the start of the turn — only the code artifact survives. -/
theorem prime_overwrites_history_cex :
    (compile_code iterSessionState validOutcome).query = some "q1q2" ∧
    (primeState (some (compile_code iterSessionState validOutcome)) "q3").query
      = some "q3" ∧
    some "q3" ≠ some "q1q2" ∧
    (primeState (some (compile_code iterSessionState validOutcome)) "q3").code
      = some "artifact" := by
  refine ⟨by decide, by decide, by decide, by decide⟩

/-- C9 amended. Applying the new request onto a loaded session overwrites
exactly the `query` field and preserves every other field — the accumulated
code artifact, `components`, `errors`, `new_query`, `instructions` and
`components_to_modify`; but because `query` is also the field in which a
successful iterative turn accumulates the request history (prior + new), the
stored request history is replaced by the new request rather than preserved. -/
theorem prime_state_frame (s : InterfaceGeneratingState) (q : String) :
    (primeState (some s) q).query = some q ∧
    (primeState (some s) q).components = s.components ∧
    (primeState (some s) q).code = s.code ∧
    (primeState (some s) q).errors = s.errors ∧
    (primeState (some s) q).new_query = s.new_query ∧
    (primeState (some s) q).instructions = s.instructions ∧
    (primeState (some s) q).components_to_modify = s.components_to_modify := by
  exact ⟨rfl, rfl, rfl, rfl, rfl, rfl, rfl⟩
